import Mathlib

/-!
Verification development for the stream-liveness backend
(`backend/server.py`).  The network is abstracted as data: every HTTP
round trip the code can make is represented by its observable outcome
(an exception, or a response consisting of a status code and headers,
plus the outcome of reading a first chunk of the body).  The functions
below are direct translations of the Python control flow; machine
clock readings are passed in as an opaque string parameter.
-/

/-- Does the character list `needle` stand at the head of `hay`? -/
def leadsWith : List Char → List Char → Bool
  | [], _ => true
  | _ :: _, [] => false
  | a :: as, b :: bs => a == b && leadsWith as bs

/-- Does `needle` occur contiguously anywhere inside `hay`?
Mirrors Python's `needle in hay` on strings. -/
def occursIn (needle : List Char) : List Char → Bool
  | [] => leadsWith needle []
  | b :: bs => leadsWith needle (b :: bs) || occursIn needle bs

/-- Python `pat in s` (substring containment). -/
def strContains (s pat : String) : Bool :=
  occursIn pat.data s.data

/-- Python `s.lower()`.  All strings the code lowercases and compares are
ASCII (header names, content types, playlist keywords), where per-character
`Char.toLower` agrees with Python's `str.lower`. -/
def strLower (s : String) : String :=
  String.mk (s.data.map Char.toLower)

/-- Python `s.startswith(pat)`. -/
def strStarts (s pat : String) : Bool :=
  leadsWith pat.data s.data

/-- Helper for `splitOnChar`: accumulate the current piece (reversed). -/
def splitOnCharAux (sep : Char) : List Char → List Char → List String
  | [], acc => [String.mk acc.reverse]
  | c :: cs, acc =>
    if c = sep then String.mk acc.reverse :: splitOnCharAux sep cs []
    else splitOnCharAux sep cs (c :: acc)

/-- Python `s.split(sep)` for a one-character separator
(`content.split('\n')` in the code). -/
def splitOnChar (sep : Char) (s : String) : List String :=
  splitOnCharAux sep s.data []

/-- Python `s.strip()`: drop leading and trailing whitespace (the strings
involved are ASCII, where `Char.isWhitespace` agrees with Python). -/
def stripStr (s : String) : String :=
  String.mk (((s.data.dropWhile Char.isWhitespace).reverse.dropWhile Char.isWhitespace).reverse)

/-- One HTTP response as the code observes it: a status code and the
response headers (header names are case-insensitive, as in httpx). -/
structure HttpResponse where
  status_code : Nat
  headers : List (String × String)
deriving DecidableEq

/-- `response.headers.get(k, '')` with httpx's case-insensitive header
names; an absent header and an empty-valued header are both returned
as `""`, which matches every truthiness test the code performs. -/
def headers_get (hs : List (String × String)) (k : String) : String :=
  match hs.find? (fun p => strLower p.fst = k) with
  | some p => p.snd
  | none => ""

/-- Outcome of one HTTP request: the call raised, or returned a response. -/
inductive Attempt where
  | fail : Attempt
  | ok : HttpResponse → Attempt
deriving DecidableEq

/-- The observable network behaviour of a single URL during one call of
`verify_stream_url`: the outcome of the HEAD request, of the ranged GET
(and of `aread()` on its body, reported as the byte count obtained), and
of the plain streaming GET (and of its first `aiter_bytes` chunk).
Timeouts and connection errors are `.fail` / `.error` outcomes. -/
structure NetBehavior where
  head : Attempt
  range_get : Attempt
  range_read : Except Unit Nat
  plain_get : Attempt
  plain_read : Except Unit Nat

/-- The `audio_types` list from `verify_stream_url`. -/
def audio_types : List String :=
  ["audio/", "application/ogg", "application/octet-stream",
   "video/mp4", "application/x-mpegurl", "application/vnd.apple.mpegurl",
   "audio/x-mpegurl", "audio/mpegurl"]

/-- `any(audio_type in content_type for audio_type in audio_types)` where
`content_type = response.headers.get('content-type', '').lower()`. -/
def hasAudioType (r : HttpResponse) : Bool :=
  audio_types.any (fun t => strContains (strLower (headers_get r.headers "content-type")) t)

/-- `response.headers.get('icy-name') or response.headers.get('icy-genre')`
(Python truthiness: an absent or empty header is falsy). -/
def icyPresent (r : HttpResponse) : Bool :=
  headers_get r.headers "icy-name" ≠ "" || headers_get r.headers "icy-genre" ≠ ""

/-- Stage 1 of `verify_stream_url`: the HEAD probe (`server.py` lines
293-309).  `some true` means `return True`; `none` means the stage fell
through (error status, inconclusive headers, or the request raised and
was swallowed by `except Exception: pass`). -/
def stage1_head (a : Attempt) : Option Bool :=
  match a with
  | .fail => none
  | .ok r =>
    if r.status_code < 400 then
      if hasAudioType r then some true
      else if icyPresent r then some true
      else none
    else none

/-- Stage 2 of `verify_stream_url`: the ranged GET probe (`server.py`
lines 311-342).  A status ≥ 400 falls through; otherwise audio
content-type or ICY headers return `True`; otherwise on a 200/206 the
body is read: a non-empty chunk returns `True`, a raising read returns
`True` ("streaming response, assume it's working"), an empty chunk
falls through. -/
def stage2_range (a : Attempt) (readRes : Except Unit Nat) : Option Bool :=
  match a with
  | .fail => none
  | .ok r =>
    if r.status_code ≥ 400 then none
    else if hasAudioType r then some true
    else if icyPresent r then some true
    else if r.status_code = 200 ∨ r.status_code = 206 then
      match readRes with
      | .error _ => some true
      | .ok n => if n > 0 then some true else none
    else none

/-- Stage 3 of `verify_stream_url`: the plain streaming GET (`server.py`
lines 344-362).  A raising request returns `False`; a status < 400 with
audio content-type returns `True`; otherwise the first body chunk
decides (non-empty → `True`, raising read → `True`, empty or no chunk →
fall out to the final `return False`). -/
def stage3_plain (a : Attempt) (readRes : Except Unit Nat) : Bool :=
  match a with
  | .fail => false
  | .ok r =>
    if r.status_code < 400 then
      if hasAudioType r then true
      else
        match readRes with
        | .error _ => true
        | .ok n => decide (n > 0)
    else false

/-- `verify_stream_url(url, timeout)` from `server.py` lines 273-368,
as a function of the URL's observable network behaviour.  The result
type `Except Unit Bool` records whether an exception escapes to the
caller (`.error`) or a boolean is returned (`.ok`); the per-stage
`try/except` handlers are the fall-through arms of the stage
functions. -/
def verify_stream_url (net : NetBehavior) : Except Unit Bool :=
  match stage1_head net.head with
  | some b => .ok b
  | none =>
    match stage2_range net.range_get net.range_read with
    | some b => .ok b
    | none => .ok (stage3_plain net.plain_get net.plain_read)

/-- The boolean the caller actually receives (C6 shows the `.error`
branch is unreachable). -/
def verify_bool (net : NetBehavior) : Bool :=
  match verify_stream_url net with
  | .ok b => b
  | .error _ => false


/-- One entry of the `stations` list sent to `verify_stations_batch`.
Each field models `station.get(key)`: `none` when the key is absent or
maps to JSON null, `some v` for a string value. -/
structure Station where
  url_resolved : Option String
  url : Option String
  stationuuid : Option String
deriving DecidableEq

/-- `station.get('url_resolved') or station.get('url', '')`: the resolved
URL when present and non-empty (Python truthiness), else the raw URL,
else `""`. -/
def effective_url (s : Station) : String :=
  if s.url_resolved.getD "" = "" then s.url.getD "" else s.url_resolved.getD ""

/-- `station.get('stationuuid', '')`. -/
def station_uuid (s : Station) : String :=
  s.stationuuid.getD ""

/-- `if not url or not stationuuid` — the guard that drops a request. -/
def station_dropped (s : Station) : Bool :=
  decide (effective_url s = "") || decide (station_uuid s = "")

/-- The output record `StationVerifyResult` (`server.py` lines 373-376):
exactly the fields `stationuuid`, `is_live`, `checked_at`. -/
structure StationVerifyResult where
  stationuuid : String
  is_live : Bool
  checked_at : String
deriving DecidableEq

/-- `check_station` from `verify_stations_batch` (`server.py` lines
383-396): drop the request when the effective URL or the identifier is
empty, otherwise verify the URL and build a result.  `verify` abstracts
the call `verify_stream_url(url, timeout=12.0)`; `now` abstracts the
clock reading `datetime.now(timezone.utc).isoformat()`. -/
def check_station (verify : String → Bool) (now : String) (s : Station) :
    Option StationVerifyResult :=
  if station_dropped s then none
  else some ⟨station_uuid s, verify (effective_url s), now⟩

/-- `stations[i:i+n]` slicing loop: split a list into consecutive chunks
of size `n`, the last one possibly shorter.  Structural recursion on a
fuel bounded below by the list length. -/
def chunksOfFuel (n : Nat) : Nat → List α → List (List α)
  | 0, _ => []
  | _ + 1, [] => []
  | fuel + 1, x :: xs => ((x :: xs).take n) :: chunksOfFuel n fuel ((x :: xs).drop n)

/-- `for i in range(0, len(stations), n): stations[i:i+n]`. -/
def chunksOf (n : Nat) (l : List α) : List (List α) :=
  chunksOfFuel n l.length l

/-- `verify_stations_batch` (`server.py` lines 378-413): truncate the
request list to 50 entries, split into sub-batches of 5, gather each
sub-batch (order-preserving), and append to `results` every element
that is a `StationVerifyResult` (dropped entries yield `None` and are
skipped). -/
def verify_stations_batch (verify : String → Bool) (now : String)
    (stations_in : List Station) : List StationVerifyResult :=
  (chunksOf 5 (stations_in.take 50)).foldl
    (fun results batch => results ++ batch.filterMap (check_station verify now)) []

/-- What one call of `resolve_tunein_stream` observes of the network:
either the GET raised, or it produced a response with a text body and a
final (post-redirect) URL. -/
structure FetchResp where
  text : String
  url : String
deriving DecidableEq

/-- Python `s.split('=', 1)[1]`: everything after the first `'='`
(empty when no `'='` occurs). -/
def afterFirstEq (s : String) : String :=
  String.mk ((s.data.dropWhile (fun c => c ≠ '=')).drop 1)

/-- The PLS branch of `resolve_tunein_stream` (`server.py` lines
168-172): when `'[playlist]' in content.lower()`, the value of the
first line starting with `file1=` (case-insensitive), stripped. -/
def pls_file1 (content : String) : Option String :=
  if strContains (strLower content) "[playlist]" then
    (splitOnChar '\n' content).findSome? (fun line =>
      if strStarts (strLower line) "file1=" then some (stripStr (afterFirstEq line)) else none)
  else none

/-- The M3U branch (`server.py` lines 174-178): the first stripped line
that is non-empty, not a `#` comment, and an absolute http(s) URL. -/
def m3u_url (content : String) : Option String :=
  (splitOnChar '\n' content).findSome? (fun line0 =>
    let line := stripStr line0
    if line ≠ "" ∧ strStarts line "#" = false ∧
        (strStarts line "http://" = true ∨ strStarts line "https://" = true) then
      some line
    else none)

/-- `resolve_tunein_stream` (`server.py` lines 161-187) as a function of
the fetch outcome: PLS `File1=` extraction, then M3U extraction, then
the redirect-followed final URL when truthy and different from the
input, else the input; any raised fetch returns the input. -/
def resolve_tunein_stream (tune_url : String) (fetch : Except Unit FetchResp) : String :=
  match fetch with
  | .error _ => tune_url
  | .ok resp =>
    match pls_file1 resp.text with
    | some v => v
    | none =>
      match m3u_url resp.text with
      | some v => v
      | none =>
        if resp.url ≠ "" ∧ resp.url ≠ tune_url then resp.url else tune_url


/-! ## Helper lemmas about the batch driver -/

/-- Joining the sub-batches recovers the input list (sub-batch width
positive, fuel at least the list length). -/
theorem chunksOfFuel_flatten (n : Nat) :
    ∀ (fuel : Nat) (l : List α), 0 < n → l.length ≤ fuel →
      (chunksOfFuel n fuel l).flatten = l := by
  intro fuel
  induction fuel with
  | zero =>
    intro l _ hl
    have hnil : l = [] := List.eq_nil_of_length_eq_zero (Nat.le_zero.mp hl)
    subst hnil
    rfl
  | succ fuel ih =>
    intro l hn hl
    cases l with
    | nil => rfl
    | cons x xs =>
      have hlen : ((x :: xs).drop n).length ≤ fuel := by
        rw [List.length_drop]
        simp only [List.length_cons] at hl ⊢
        omega
      simp only [chunksOfFuel, List.flatten_cons]
      rw [ih ((x :: xs).drop n) hn hlen, List.take_append_drop]

/-- The `results ++ …` accumulation in the sub-batch loop, as a fold. -/
theorem foldl_append_eq (f : List α → List β) :
    ∀ (cs : List (List α)) (acc : List β),
      cs.foldl (fun r b => r ++ f b) acc = acc ++ (cs.map f).flatten := by
  intro cs
  induction cs with
  | nil => intro acc; simp
  | cons c cs ih => intro acc; simp [ih, List.append_assoc]

/-- Filtering sub-batch results chunk by chunk equals filtering the
joined list. -/
theorem flatten_map_filterMap (f : α → Option β) :
    ∀ cs : List (List α), (cs.map (List.filterMap f)).flatten = (cs.flatten).filterMap f := by
  intro cs
  induction cs with
  | nil => rfl
  | cons c cs ih =>
    simp only [List.map_cons, List.flatten_cons, List.filterMap_append, ih]

/-- The batch driver is the order-preserving `filterMap` of
`check_station` over the first 50 requests: sub-batches of 5 are
processed sequentially and each `gather` preserves the order of its
tasks. -/
theorem verify_stations_batch_eq (verify : String → Bool) (now : String)
    (req : List Station) :
    verify_stations_batch verify now req =
      (req.take 50).filterMap (check_station verify now) := by
  unfold verify_stations_batch chunksOf
  rw [foldl_append_eq, List.nil_append, flatten_map_filterMap,
    chunksOfFuel_flatten 5 (req.take 50).length (req.take 50) (by omega) (le_refl _)]

/-- Projecting each produced record to (identifier, verdict) matches the
surviving requests one for one, in order. -/
theorem filterMap_check_map (verify : String → Bool) (now : String) :
    ∀ l : List Station,
      (l.filterMap (check_station verify now)).map (fun r => (r.stationuuid, r.is_live)) =
      (l.filter (fun s => !station_dropped s)).map
        (fun s => (station_uuid s, verify (effective_url s))) := by
  intro l
  induction l with
  | nil => rfl
  | cons s t ih =>
    by_cases h : station_dropped s = true
    · simp [check_station, h, ih]
    · simp [check_station, h, ih]

/-! ## Concrete network behaviours used in the claim theorems -/

/-- A server answering every request with status 200, `Content-Type:
text/html` and a non-empty body (512 bytes read at each GET stage). -/
def net_html : NetBehavior :=
  ⟨.ok ⟨200, [("content-type", "text/html")]⟩,
   .ok ⟨200, [("content-type", "text/html")]⟩, .ok 512,
   .ok ⟨200, [("content-type", "text/html")]⟩, .ok 512⟩

/-- A batch request entry pointing at the HTML server. -/
def html_station : Station :=
  ⟨some "", some "http://html.example/page", some "s1"⟩

/-- A HEAD response `200` with `icy-name: SomaFM`; later stages fail. -/
def net_icy_name : NetBehavior :=
  ⟨.ok ⟨200, [("icy-name", "SomaFM")]⟩, .fail, .error (), .fail, .error ()⟩

/-- A HEAD response `200` whose only ICY header is `icy-br`; later
stages fail. -/
def net_icy_br : NetBehavior :=
  ⟨.ok ⟨200, [("icy-br", "128")]⟩, .fail, .error (), .fail, .error ()⟩

/-- Same HEAD outcome as `net_icy_name` but a different behaviour at the
later stages (an HTML ranged GET instead of a failure). -/
def net_icy_name_alt : NetBehavior :=
  ⟨.ok ⟨200, [("icy-name", "SomaFM")]⟩,
   .ok ⟨200, [("content-type", "text/html")]⟩, .ok 512, .fail, .error ()⟩

/-! ## Claims -/

/-- C1: the claim says a URL served with status 200 and Content-Type
`text/html` always gets a negative verdict (`is_live = false`, reason
`not_audio`).  The code violates this: on such a server the ranged-GET
stage reads a non-empty body chunk and returns `True`, so the verdict
is positive — even though the content type matched no audio family —
and no reason or content type is recorded at all.  This contradicts the
repository's own tests (`test_not_audio_reason`,
`test_html_page_not_audio`). -/
theorem c1_html_200_marked_live :
    verify_stream_url net_html = .ok true ∧
    hasAudioType ⟨200, [("content-type", "text/html")]⟩ = false :=
  ⟨rfl, rfl⟩

/-- C2: the claim says every verification result carries a `reason`
from a closed enumeration and a `content_type`, with `is_live`
partitioned by the reason.  The code's output record has exactly the
fields `stationuuid`, `is_live`, `checked_at` — no `reason`, no
`content_type`, no enumeration — as this complete evaluation of the
batch endpoint on one request shows; the repository's own tests assert
`"reason" in result` and `"content_type" in result`. -/
theorem c2_result_record_has_three_fields :
    verify_stations_batch (fun _ => verify_bool net_html)
      "2025-01-01T00:00:00+00:00" [html_station] =
    [{ stationuuid := "s1", is_live := true,
       checked_at := "2025-01-01T00:00:00+00:00" }] :=
  rfl

/-- C3: a request whose identifier is empty or whose effective URL is
empty produces no output record at all: `check_station` maps it to
`none`, and the batch output is exactly the `filterMap` of
`check_station` over the first 50 requests, so nothing dropped by
`check_station` can appear. -/
theorem c3_empty_requests_excluded (verify : String → Bool) (now : String)
    (req : List Station) (s : Station)
    (h : station_uuid s = "" ∨ effective_url s = "") :
    check_station verify now s = none ∧
    verify_stations_batch verify now req =
      (req.take 50).filterMap (check_station verify now) := by
  refine ⟨?_, verify_stations_batch_eq verify now req⟩
  have hd : station_dropped s = true := by
    cases h with
    | inl h => simp [station_dropped, h]
    | inr h => simp [station_dropped, h]
  simp [check_station, hd]

/-- Witness for C3 at a concrete request with every field absent. -/
theorem c3_empty_requests_excluded_witness :
    check_station (fun _ => true) "t" ⟨none, none, none⟩ = none :=
  (c3_empty_requests_excluded (fun _ => true) "t" [] ⟨none, none, none⟩
    (Or.inl rfl)).1

/-- C4: for any per-URL network behaviour — including behaviours where
every request raises or times out — the batch output lists exactly the
surviving requests (non-empty identifier and effective URL), each
exactly once, in order, carrying the verdict of the prober on its
effective URL.  A prober failure degrades to a `false` verdict (the
prober swallows it, C6) and never makes the record vanish or aborts the
batch. -/
theorem c4_one_result_per_surviving_request (netf : String → NetBehavior)
    (now : String) (req : List Station) :
    (verify_stations_batch (fun u => verify_bool (netf u)) now req).map
        (fun r => (r.stationuuid, r.is_live)) =
      ((req.take 50).filter (fun s => !station_dropped s)).map
        (fun s => (station_uuid s, verify_bool (netf (effective_url s)))) := by
  rw [verify_stations_batch_eq]
  exact filterMap_check_map (fun u => verify_bool (netf u)) now (req.take 50)

/-- C5: the batch driver truncates its input to the first 50 entries —
the output never reflects anything beyond them — and the output length
is at most 50. -/
theorem c5_batch_truncates_to_50 (verify : String → Bool) (now : String)
    (req : List Station) :
    verify_stations_batch verify now req =
      verify_stations_batch verify now (req.take 50) ∧
    (verify_stations_batch verify now req).length ≤ 50 := by
  constructor
  · rw [verify_stations_batch_eq, verify_stations_batch_eq, List.take_take]
    norm_num
  · rw [verify_stations_batch_eq]
    calc ((req.take 50).filterMap (check_station verify now)).length
        ≤ (req.take 50).length := List.length_filterMap_le _ _
      _ ≤ 50 := by rw [List.length_take]; omega

/-- C6: the single-URL prober never lets an exception escape: whatever
the network does (every request may raise, every read may raise), the
result is `.ok` with a boolean; and when all three attempts fail at the
network level the returned verdict is the normal non-live result
`.ok false`. -/
theorem c6_prober_never_throws :
    (∀ net : NetBehavior, ∃ b : Bool, verify_stream_url net = .ok b) ∧
    (∀ r p : Except Unit Nat,
      verify_stream_url ⟨.fail, .fail, r, .fail, p⟩ = .ok false) := by
  constructor
  · intro net
    unfold verify_stream_url
    cases stage1_head net.head with
    | some b => exact ⟨b, rfl⟩
    | none =>
      cases stage2_range net.range_get net.range_read with
      | some b => exact ⟨b, rfl⟩
      | none => exact ⟨stage3_plain net.plain_get net.plain_read, rfl⟩
  · intro r p
    rfl

/-- C7: the HEAD stage yields no verdict on a HEAD-level exception or an
error status (≥ 400), never yields a negative verdict by itself, and
when it classifies positive the prober returns `.ok true` immediately,
independent of everything the later stages would observe. -/
theorem c7_head_stage_contract :
    stage1_head .fail = none ∧
    (∀ r : HttpResponse, 400 ≤ r.status_code → stage1_head (.ok r) = none) ∧
    (∀ a : Attempt, stage1_head a ≠ some false) ∧
    (∀ net net' : NetBehavior, net.head = net'.head →
      stage1_head net.head = some true →
      verify_stream_url net = .ok true ∧
      verify_stream_url net = verify_stream_url net') := by
  refine ⟨rfl, ?_, ?_, ?_⟩
  · intro r h
    simp only [stage1_head]
    rw [if_neg (by omega)]
  · intro a
    cases a with
    | fail => simp [stage1_head]
    | ok r =>
      simp only [stage1_head]
      split_ifs <;> simp
  · intro net net' hh h1
    refine ⟨?_, ?_⟩
    · unfold verify_stream_url
      rw [h1]
    · unfold verify_stream_url
      rw [h1, ← hh, h1]

/-- Witness for C7: a 404 HEAD yields no verdict, and a positive ICY
HEAD classification returns `.ok true` regardless of the later-stage
behaviours (two nets differing only after the HEAD agree). -/
theorem c7_head_stage_contract_witness :
    stage1_head (.ok ⟨404, []⟩) = none ∧
    (verify_stream_url net_icy_name = .ok true ∧
     verify_stream_url net_icy_name = verify_stream_url net_icy_name_alt) :=
  ⟨c7_head_stage_contract.2.1 ⟨404, []⟩ (by decide),
   c7_head_stage_contract.2.2.2 net_icy_name net_icy_name_alt rfl rfl⟩

/-- C8: the claim says any `icy-*` header (icy-name, icy-genre, icy-br,
…) with a non-error status classifies positive with reason
`icy_stream`.  The code checks only `icy-name` and `icy-genre` and
records no reason at all: a 200 HEAD with `icy-name: SomaFM` returns
the bare boolean `True` (no `icy_stream` reason exists to return, though
the repository's tests assert `result["reason"] == "icy_stream"`), and
a 200 HEAD carrying only `icy-br` is not classified positive — with the
later stages failing, the whole verdict is `False`. -/
theorem c8_icy_header_evaluation :
    verify_stream_url net_icy_name = .ok true ∧
    verify_stream_url net_icy_br = .ok false :=
  ⟨rfl, rfl⟩

/-- C9: the playlist resolver never hard-fails: a raising fetch returns
the input URL, and when no PLS `File1=` line matches, no M3U URL line
matches, and the redirect-followed final URL equals the input, the
input URL is returned unchanged. -/
theorem c9_resolver_returns_input (tune_url : String) (resp : FetchResp)
    (hp : pls_file1 resp.text = none) (hm : m3u_url resp.text = none)
    (hu : resp.url = tune_url) :
    resolve_tunein_stream tune_url (.error ()) = tune_url ∧
    resolve_tunein_stream tune_url (.ok resp) = tune_url := by
  refine ⟨rfl, ?_⟩
  simp only [resolve_tunein_stream, hp, hm]
  simp [hu]

/-- Witness for C9 at a concrete non-playlist body with no redirect. -/
theorem c9_resolver_returns_input_witness :
    resolve_tunein_stream "u" (.ok ⟨"nothing here", "u"⟩) = "u" :=
  (c9_resolver_returns_input "u" ⟨"nothing here", "u"⟩ rfl rfl rfl).2

/-- C10: the surviving results appear in the output in the same relative
order as their requests appeared in the input: the batch output is the
order-preserving `filterMap` of `check_station` over the first 50
requests (sub-batches are appended sequentially and each gather keeps
the order of its tasks). -/
theorem c10_output_in_input_order (verify : String → Bool) (now : String)
    (req : List Station) :
    verify_stations_batch verify now req =
      (req.take 50).filterMap (check_station verify now) :=
  verify_stations_batch_eq verify now req
